import Mathlib

/-!
Verification of the RapidShyp serviceability relay (src/server.js).

The server exposes one POST handler, `/api/rapidshyp/check`.  It destructures
five fields from the JSON request body (Pickup_pincode, Delivery_pincode,
total_order_value, cod, weight), validates the three required ones with
JavaScript truthiness checks in a fixed order, builds an outbound payload,
issues one upstream HTTP call, and translates the upstream outcome into a
normalized JSON envelope.

We embed the JavaScript values appearing in request bodies as an inductive
`JsVal` (JSON-parsed bodies never contain functions; numbers are modelled
ideally by rationals, with NaN as a distinguished value).  The handler is
split into the validation/payload stage (`checkServiceabilityValidate`,
mirroring server.js lines 29-64) and the upstream-outcome translation
(`handleUpstream`, lines 69-113); `checkServiceability` composes them,
taking the upstream call as a function from the payload to an outcome so
that independence from the upstream can be stated.
-/

namespace RapidShyp

/-- A JavaScript number: either NaN or an ideal (rational) value. -/
inductive JsNum where
  | nan
  | val (q : ℚ)
  deriving DecidableEq, Repr

/-- JavaScript values that can occur in a JSON-parsed request body or an
upstream response body. -/
inductive JsVal where
  | undefined
  | null
  | bool (b : Bool)
  | num (n : JsNum)
  | str (s : String)
  | obj (fields : List (String × JsVal))
  deriving Repr

/-- JavaScript truthiness: `undefined`, `null`, `false`, `0`, `NaN` and the
empty string are falsy; every object is truthy. -/
def truthy : JsVal → Bool
  | .undefined => false
  | .null => false
  | .bool b => b
  | .num .nan => false
  | .num (.val q) => decide (q ≠ 0)
  | .str s => !(s == "")
  | .obj _ => true

/-- Property access on a JSON object body: the value stored under `key`, or
`undefined` when the key is absent (JSON-parsed objects have unique keys). -/
def getField (body : List (String × JsVal)) (key : String) : JsVal :=
  match body.find? (fun p => p.1 == key) with
  | some p => p.2
  | none => .undefined

/-- Removing a key from a body, to model the same body with that field absent. -/
def removeField (body : List (String × JsVal)) (key : String) : List (String × JsVal) :=
  body.filter (fun p => !(p.1 == key))

/-- Numeric value of a list of decimal digit characters. -/
def digitsVal (l : List Char) : Nat :=
  l.foldl (fun a c => a * 10 + (c.toNat - 48)) 0

/-- Leading run of decimal digits, or none when the run is empty. -/
def parseDigits (cs : List Char) : Option Nat :=
  let ds := cs.takeWhile Char.isDigit
  if ds.isEmpty then none else some (digitsVal ds)

/-- Skip the leading whitespace characters that JavaScript number parsing
ignores (modelled for the ASCII whitespace characters). -/
def skipWs : List Char → List Char
  | c :: rest =>
      if c = ' ' ∨ c = '\t' ∨ c = '\n' ∨ c = '\r' ∨ c = '\x0b' ∨ c = '\x0c' then skipWs rest
      else c :: rest
  | [] => []

/-- JavaScript `parseInt` on a string (decimal radix): skip leading
whitespace, accept an optional sign, then read leading decimal digits;
`none` models a NaN result.  (`parseInt` always returns NaN or an integer.) -/
def parseIntStr (s : String) : Option Int :=
  match skipWs s.data with
  | '-' :: rest => (parseDigits rest).map (fun n => -(n : Int))
  | '+' :: rest => (parseDigits rest).map (fun n => (n : Int))
  | cs => (parseDigits cs).map (fun n => (n : Int))

/-- Truncation of a rational toward zero, as JavaScript `parseInt` of the
decimal string of a number behaves on finite decimals. -/
def ratTrunc (q : ℚ) : Int :=
  if q < 0 then -((-q).num / ((-q).den : Int)) else q.num / (q.den : Int)

/-- JavaScript `parseInt` applied to an arbitrary value (the value is first
stringified: `undefined`, `null`, booleans and plain objects stringify to
text with no leading digits, hence NaN). -/
def parseIntVal : JsVal → Option Int
  | .str s => parseIntStr s
  | .num .nan => none
  | .num (.val q) => some (ratTrunc q)
  | _ => none

/-- Magnitude part of JavaScript `parseFloat`: leading digits, optionally a
decimal point and fractional digits; at least one digit must be present. -/
def parseFloatMag (cs : List Char) : Option ℚ :=
  let intds := cs.takeWhile Char.isDigit
  let rest := cs.dropWhile Char.isDigit
  match rest with
  | '.' :: rest2 =>
      let fracds := rest2.takeWhile Char.isDigit
      if intds.isEmpty && fracds.isEmpty then none
      else some ((digitsVal intds : ℚ) + (digitsVal fracds : ℚ) / (10 : ℚ) ^ fracds.length)
  | _ => if intds.isEmpty then none else some (digitsVal intds : ℚ)

/-- JavaScript `parseFloat` on a string: skip leading whitespace, optional
sign, leading decimal magnitude; NaN when no digits are found. -/
def parseFloatStr (s : String) : JsNum :=
  match skipWs s.data with
  | '-' :: rest =>
      match parseFloatMag rest with
      | some q => .val (-q)
      | none => .nan
  | '+' :: rest =>
      match parseFloatMag rest with
      | some q => .val q
      | none => .nan
  | cs =>
      match parseFloatMag cs with
      | some q => .val q
      | none => .nan

/-- JavaScript `parseFloat` applied to an arbitrary value (numbers pass
through; `undefined`, `null`, booleans and plain objects stringify to text
with no leading digits, hence NaN). -/
def parseFloatVal : JsVal → JsNum
  | .str s => parseFloatStr s
  | .num n => n
  | _ => .nan

/-- Template-literal stringification of a `parseInt` result, as in the
payload fields written with backtick interpolation in server.js. -/
def intTemplate : Option Int → String
  | none => "NaN"
  | some i => toString i

/-- The outbound payload built at server.js lines 58-64. -/
structure Payload where
  Pickup_pincode : String
  Delivery_pincode : String
  cod : JsVal
  total_order_value : String
  weight : JsNum

/-- Payload construction, field by field as written in server.js:
pincodes and total_order_value go through `parseInt` then template-literal
stringification, `cod` is passed through unchanged, `weight` through
`parseFloat`. -/
def mkPayload (pp dp cod tov w : JsVal) : Payload :=
  { Pickup_pincode := intTemplate (parseIntVal pp)
    Delivery_pincode := intTemplate (parseIntVal dp)
    cod := cod
    total_order_value := intTemplate (parseIntVal tov)
    weight := parseFloatVal w }

/-- Result of the validation stage: an early 400 rejection, or the payload
that will be sent upstream. -/
inductive ValResult where
  | reject (status : Nat) (message : String)
  | proceed (payload : Payload)

/-- The validation and payload-construction stage of the handler
(server.js lines 29-64): destructure the five fields, check the three
required ones for truthiness in the source's order (Delivery_pincode,
weight, Pickup_pincode), and build the payload when all pass. -/
def checkServiceabilityValidate (body : List (String × JsVal)) : ValResult :=
  let pp := getField body "Pickup_pincode"
  let dp := getField body "Delivery_pincode"
  let tov := getField body "total_order_value"
  let cod := getField body "cod"
  let w := getField body "weight"
  if !truthy dp then .reject 400 "Pincode is required"
  else if !truthy w then .reject 400 "Weight (in kg) is required"
  else if !truthy pp then .reject 400 "Pickup pincode is required"
  else .proceed (mkPayload pp dp cod tov w)

/-- Outcome of the single outbound axios call: HTTP success (axios
resolves), an HTTP error status with a response body and the thrown error's
message, or a failure with no response (network error, timeout). -/
inductive UpstreamOutcome where
  | ok (data : JsVal)
  | httpError (status : Nat) (data : JsVal) (errMsg : String)
  | networkError (errMsg : String)

/-- The JSON envelope and HTTP status the relay responds with.  `none` in an
optional slot models a field set to `undefined`, which JSON serialization
omits. -/
structure Response where
  status : Nat
  success : Bool
  message : String
  data : Option JsVal
  details : Option JsVal
  error : Option String
  deriving Repr

/-- The early-rejection response: `res.status(s).json({success:false, message})`. -/
def rejectResponse (status : Nat) (message : String) : Response :=
  { status := status, success := false, message := message
    data := none, details := none, error := none }

/-- Translation of the upstream outcome into the response envelope
(server.js lines 83-113): success echoes the body under `data`; a 401
maps to the fixed unauthorized message; a 400 maps to the bad-request
message with the upstream body under `details`; everything else maps to a
500 whose `error` field carries the error message only in development mode. -/
def handleUpstream (devMode : Bool) : UpstreamOutcome → Response
  | .ok data =>
      { status := 200, success := true, message := "Serviceability check completed"
        data := some data, details := none, error := none }
  | .httpError status data errMsg =>
      if status = 401 then
        { status := 401, success := false, message := "Unauthorized: Invalid RapidShyp API key"
          data := none, details := none, error := none }
      else if status = 400 then
        { status := 400, success := false, message := "Bad request to RapidShyp API"
          data := none, details := some data, error := none }
      else
        { status := 500, success := false, message := "Internal server error"
          data := none, details := none
          error := if devMode then some errMsg else none }
  | .networkError errMsg =>
      { status := 500, success := false, message := "Internal server error"
        data := none, details := none
        error := if devMode then some errMsg else none }

/-- The complete handler: validate, and when validation passes, perform the
upstream call on the constructed payload and translate its outcome. -/
def checkServiceability (devMode : Bool) (body : List (String × JsVal))
    (upstream : Payload → UpstreamOutcome) : Response :=
  match checkServiceabilityValidate body with
  | .reject status message => rejectResponse status message
  | .proceed payload => handleUpstream devMode (upstream payload)

/-- Upstream outcomes that are neither an HTTP success nor an upstream 401
nor an upstream 400: the catch-all 500 branch of the handler. -/
def otherFailure : UpstreamOutcome → Prop
  | .ok _ => False
  | .httpError status _ _ => status ≠ 401 ∧ status ≠ 400
  | .networkError _ => True

/-- The thrown error's message (`error.message`), used by the 500 branch. -/
def errMessage : UpstreamOutcome → String
  | .ok _ => ""
  | .httpError _ _ m => m
  | .networkError m => m

/-! ### Helper lemmas -/

theorem getField_cons_self (k : String) (v : JsVal) (body : List (String × JsVal)) :
    getField ((k, v) :: body) k = v := by
  unfold getField
  rw [List.find?_cons_of_pos _ (by simp)]

theorem getField_cons_ne (k1 k2 : String) (v : JsVal) (body : List (String × JsVal))
    (h : (k1 == k2) = false) :
    getField ((k1, v) :: body) k2 = getField body k2 := by
  unfold getField
  rw [List.find?_cons_of_neg _ (by simp_all)]

theorem removeField_cons_eq (k1 : String) (v1 : JsVal) (tl : List (String × JsVal)) (k : String)
    (h : (k1 == k) = true) :
    removeField ((k1, v1) :: tl) k = removeField tl k := by
  simp [removeField, List.filter_cons, h]

theorem removeField_cons_ne (k1 : String) (v1 : JsVal) (tl : List (String × JsVal)) (k : String)
    (h : (k1 == k) = false) :
    removeField ((k1, v1) :: tl) k = (k1, v1) :: removeField tl k := by
  simp [removeField, List.filter_cons, h]

theorem getField_removeField_self (body : List (String × JsVal)) (k : String) :
    getField (removeField body k) k = .undefined := by
  induction body with
  | nil => rfl
  | cons hd tl ih =>
      obtain ⟨k1, v1⟩ := hd
      by_cases h : k1 = k
      · rw [removeField_cons_eq k1 v1 tl k (by simp [h]), ih]
      · have hb : (k1 == k) = false := by simp [h]
        rw [removeField_cons_ne k1 v1 tl k hb, getField_cons_ne k1 k v1 (removeField tl k) hb, ih]

theorem getField_removeField_ne (body : List (String × JsVal)) (k k2 : String)
    (h : (k == k2) = false) :
    getField (removeField body k) k2 = getField body k2 := by
  induction body with
  | nil => rfl
  | cons hd tl ih =>
      obtain ⟨k1, v1⟩ := hd
      by_cases h1 : k1 = k
      · subst h1
        rw [removeField_cons_eq k1 v1 tl k1 (by simp), ih, getField_cons_ne k1 k2 v1 tl h]
      · have hb : (k1 == k) = false := by simp [h1]
        rw [removeField_cons_ne k1 v1 tl k hb]
        by_cases h2 : k1 = k2
        · subst h2
          rw [getField_cons_self, getField_cons_self]
        · have hb2 : (k1 == k2) = false := by simp [h2]
          rw [getField_cons_ne k1 k2 v1 (removeField tl k) hb2, ih,
            getField_cons_ne k1 k2 v1 tl hb2]

/-- When validation passes, the payload is exactly `mkPayload` applied to the
five fields looked up in the body. -/
theorem validate_proceed_eq (body : List (String × JsVal)) (p : Payload)
    (h : checkServiceabilityValidate body = .proceed p) :
    p = mkPayload (getField body "Pickup_pincode") (getField body "Delivery_pincode")
          (getField body "cod") (getField body "total_order_value")
          (getField body "weight") := by
  simp only [checkServiceabilityValidate] at h
  split at h
  · exact ValResult.noConfusion h
  · split at h
    · exact ValResult.noConfusion h
    · split at h
      · exact ValResult.noConfusion h
      · exact (ValResult.proceed.inj h).symm

/-- Lifting an equal validation result to the full handler. -/
theorem checkServiceability_congr (devMode : Bool) (b1 b2 : List (String × JsVal))
    (upstream : Payload → UpstreamOutcome)
    (h : checkServiceabilityValidate b1 = checkServiceabilityValidate b2) :
    checkServiceability devMode b1 upstream = checkServiceability devMode b2 upstream := by
  simp [checkServiceability, h]

/-- A validation rejection is the whole response: the upstream call plays no
part in it. -/
theorem checkServiceability_of_reject (devMode : Bool) (body : List (String × JsVal))
    (upstream : Payload → UpstreamOutcome) (s : Nat) (m : String)
    (h : checkServiceabilityValidate body = .reject s m) :
    checkServiceability devMode body upstream = rejectResponse s m := by
  simp [checkServiceability, h]

/-! ### Claim theorems -/

/-- A request that passes validation but supplies neither `cod` nor
`total_order_value`. -/
def reqNoValueFields : List (String × JsVal) :=
  [("Pickup_pincode", JsVal.str "110001"), ("Delivery_pincode", JsVal.str "400001"),
   ("weight", JsVal.str "2")]

/-- The payload the handler builds for `reqNoValueFields`. -/
def payloadNoValueFields : Payload :=
  mkPayload (JsVal.str "110001") (JsVal.str "400001") JsVal.undefined JsVal.undefined (JsVal.str "2")

/-- C1, counterexample: a request that passes validation with `cod` and
`total_order_value` absent produces a payload whose `cod` is `undefined`
(so the serialized JSON omits it) and whose `total_order_value` is the
string "NaN" (`parseInt(undefined)` stringified) — neither field carries 0. -/
theorem c1_counterexample :
    checkServiceabilityValidate reqNoValueFields = ValResult.proceed payloadNoValueFields ∧
    payloadNoValueFields.cod = JsVal.undefined ∧
    payloadNoValueFields.cod ≠ JsVal.num (JsNum.val 0) ∧
    payloadNoValueFields.total_order_value = "NaN" ∧
    payloadNoValueFields.total_order_value ≠ "0" :=
  ⟨rfl, rfl, fun h => JsVal.noConfusion h, rfl, by decide⟩

/-- C1, amended: for every request that passes validation with `cod` and
`total_order_value` absent, the outbound payload carries `undefined` for
`cod` (the field is dropped by JSON serialization) and the string "NaN" for
`total_order_value`; the absent fields are not defaulted to 0. -/
theorem c1_absent_value_fields (body : List (String × JsVal)) (p : Payload)
    (hv : checkServiceabilityValidate body = .proceed p)
    (hcod : getField body "cod" = JsVal.undefined)
    (htov : getField body "total_order_value" = JsVal.undefined) :
    p.cod = JsVal.undefined ∧ p.total_order_value = "NaN" := by
  rw [validate_proceed_eq body p hv, hcod, htov]
  exact ⟨rfl, rfl⟩

/-- C1, witness for the amended claim at a concrete request. -/
theorem c1_absent_value_fields_witness :
    payloadNoValueFields.cod = JsVal.undefined ∧ payloadNoValueFields.total_order_value = "NaN" :=
  c1_absent_value_fields reqNoValueFields payloadNoValueFields rfl rfl rfl

/-- C2, counterexample: a request that supplies the three required fields
under the data model's lowercase names (pickup_pincode, delivery_pincode,
weight) with valid values is nevertheless rejected — the code destructures
the capitalized names Pickup_pincode and Delivery_pincode. -/
theorem c2_counterexample :
    checkServiceabilityValidate
        [("pickup_pincode", JsVal.str "110001"), ("delivery_pincode", JsVal.str "400001"),
         ("weight", JsVal.str "2")] =
      ValResult.reject 400 "Pincode is required" := rfl

/-- C2, amended: for every inbound body supplying truthy values under the
names the code actually destructures — Pickup_pincode, Delivery_pincode and
weight — validation succeeds, the payload is built from the five looked-up
fields, and the handler's response is the translation of the upstream
outcome on that payload. -/
theorem c2_code_names_validate (body : List (String × JsVal))
    (hdp : truthy (getField body "Delivery_pincode") = true)
    (hw : truthy (getField body "weight") = true)
    (hpp : truthy (getField body "Pickup_pincode") = true) :
    checkServiceabilityValidate body =
      ValResult.proceed
        (mkPayload (getField body "Pickup_pincode") (getField body "Delivery_pincode")
          (getField body "cod") (getField body "total_order_value")
          (getField body "weight")) ∧
    ∀ (devMode : Bool) (upstream : Payload → UpstreamOutcome),
      checkServiceability devMode body upstream =
        handleUpstream devMode
          (upstream
            (mkPayload (getField body "Pickup_pincode") (getField body "Delivery_pincode")
              (getField body "cod") (getField body "total_order_value")
              (getField body "weight"))) := by
  have h1 : checkServiceabilityValidate body =
      ValResult.proceed
        (mkPayload (getField body "Pickup_pincode") (getField body "Delivery_pincode")
          (getField body "cod") (getField body "total_order_value")
          (getField body "weight")) := by
    simp [checkServiceabilityValidate, hdp, hw, hpp]
  exact ⟨h1, fun devMode upstream => by simp [checkServiceability, h1]⟩

/-- A request supplying all five fields under the code's names. -/
def reqFull : List (String × JsVal) :=
  [("Pickup_pincode", JsVal.str "110001"), ("Delivery_pincode", JsVal.str "400001"),
   ("weight", JsVal.str "2"), ("cod", JsVal.bool true), ("total_order_value", JsVal.str "500")]

/-- The payload the handler builds for `reqFull`. -/
def payloadFull : Payload :=
  mkPayload (JsVal.str "110001") (JsVal.str "400001") (JsVal.bool true)
    (JsVal.str "500") (JsVal.str "2")

/-- C2, witness for the amended claim at a concrete request. -/
theorem c2_code_names_validate_witness :
    checkServiceabilityValidate reqFull = ValResult.proceed payloadFull ∧
    checkServiceability false reqFull (fun _ => UpstreamOutcome.ok JsVal.null) =
      handleUpstream false (UpstreamOutcome.ok JsVal.null) :=
  ⟨(c2_code_names_validate reqFull rfl rfl rfl).1,
   (c2_code_names_validate reqFull rfl rfl rfl).2 false (fun _ => UpstreamOutcome.ok JsVal.null)⟩

/-- C3: every request missing (or carrying a falsy value for) one of the
three required fields is answered with status 400, success=false and a
message naming a missing required field, and the response does not depend on
the upstream call (no outbound call is observable). -/
theorem c3_missing_field_rejects (body : List (String × JsVal)) (devMode : Bool)
    (h : truthy (getField body "Delivery_pincode") = false ∨
         truthy (getField body "weight") = false ∨
         truthy (getField body "Pickup_pincode") = false) :
    ∃ m : String,
      (∀ upstream : Payload → UpstreamOutcome,
          checkServiceability devMode body upstream = rejectResponse 400 m) ∧
      ((m = "Pincode is required" ∧ truthy (getField body "Delivery_pincode") = false) ∨
       (m = "Weight (in kg) is required" ∧ truthy (getField body "weight") = false) ∨
       (m = "Pickup pincode is required" ∧ truthy (getField body "Pickup_pincode") = false)) := by
  cases hdp : truthy (getField body "Delivery_pincode") with
  | false =>
      refine ⟨"Pincode is required", fun upstream => ?_, Or.inl ⟨rfl, rfl⟩⟩
      exact checkServiceability_of_reject devMode body upstream 400 _
        (by simp [checkServiceabilityValidate, hdp])
  | true =>
      cases hw : truthy (getField body "weight") with
      | false =>
          refine ⟨"Weight (in kg) is required", fun upstream => ?_, Or.inr (Or.inl ⟨rfl, rfl⟩)⟩
          exact checkServiceability_of_reject devMode body upstream 400 _
            (by simp [checkServiceabilityValidate, hdp, hw])
      | true =>
          cases hpp : truthy (getField body "Pickup_pincode") with
          | false =>
              refine ⟨"Pickup pincode is required", fun upstream => ?_,
                Or.inr (Or.inr ⟨rfl, rfl⟩)⟩
              exact checkServiceability_of_reject devMode body upstream 400 _
                (by simp [checkServiceabilityValidate, hdp, hw, hpp])
          | true =>
              exfalso
              rcases h with h | h | h <;> simp_all


/-- C3, witness: the empty body is missing every required field. -/
theorem c3_missing_field_rejects_witness :
    ∃ m : String,
      (∀ upstream : Payload → UpstreamOutcome,
          checkServiceability false [] upstream = rejectResponse 400 m) ∧
      ((m = "Pincode is required" ∧ truthy (getField [] "Delivery_pincode") = false) ∨
       (m = "Weight (in kg) is required" ∧ truthy (getField [] "weight") = false) ∨
       (m = "Pickup pincode is required" ∧ truthy (getField [] "Pickup_pincode") = false)) :=
  c3_missing_field_rejects [] false (Or.inl rfl)

/-- C4: for every validated request whose upstream call resolves with an
HTTP success, the relay responds 200 with success=true, the upstream body
under `data`, and the fixed message. -/
theorem c4_upstream_success (devMode : Bool) (body : List (String × JsVal)) (p : Payload)
    (upstream : Payload → UpstreamOutcome) (data : JsVal)
    (hv : checkServiceabilityValidate body = .proceed p)
    (hup : upstream p = .ok data) :
    checkServiceability devMode body upstream =
      { status := 200, success := true, message := "Serviceability check completed",
        data := some data, details := none, error := none } := by
  simp [checkServiceability, hv, hup, handleUpstream]

/-- C4, witness at a concrete validated request and upstream body. -/
theorem c4_upstream_success_witness :
    checkServiceability false reqFull
        (fun _ => UpstreamOutcome.ok (JsVal.obj [("serviceable", JsVal.bool true)])) =
      { status := 200, success := true, message := "Serviceability check completed",
        data := some (JsVal.obj [("serviceable", JsVal.bool true)]), details := none,
        error := none } :=
  c4_upstream_success false reqFull payloadFull
    (fun _ => UpstreamOutcome.ok (JsVal.obj [("serviceable", JsVal.bool true)]))
    (JsVal.obj [("serviceable", JsVal.bool true)]) rfl rfl

/-- C5: for every validated request whose upstream call fails with HTTP 401,
the relay responds 401 with success=false and the fixed unauthorized
message, whatever the upstream response body was. -/
theorem c5_upstream_401 (devMode : Bool) (body : List (String × JsVal)) (p : Payload)
    (upstream : Payload → UpstreamOutcome) (data : JsVal) (errMsg : String)
    (hv : checkServiceabilityValidate body = .proceed p)
    (hup : upstream p = .httpError 401 data errMsg) :
    checkServiceability devMode body upstream =
      { status := 401, success := false, message := "Unauthorized: Invalid RapidShyp API key",
        data := none, details := none, error := none } := by
  simp [checkServiceability, hv, hup, handleUpstream]

/-- C5, witness at a concrete validated request and upstream 401. -/
theorem c5_upstream_401_witness :
    checkServiceability true reqFull
        (fun _ => UpstreamOutcome.httpError 401 (JsVal.str "nope")
          "Request failed with status code 401") =
      { status := 401, success := false, message := "Unauthorized: Invalid RapidShyp API key",
        data := none, details := none, error := none } :=
  c5_upstream_401 true reqFull payloadFull
    (fun _ => UpstreamOutcome.httpError 401 (JsVal.str "nope")
      "Request failed with status code 401")
    (JsVal.str "nope") "Request failed with status code 401" rfl rfl

/-- C6: for every validated request whose upstream call fails with HTTP 400,
the relay responds 400 with success=false, the fixed bad-request message,
and the raw upstream error body under `details`. -/
theorem c6_upstream_400 (devMode : Bool) (body : List (String × JsVal)) (p : Payload)
    (upstream : Payload → UpstreamOutcome) (data : JsVal) (errMsg : String)
    (hv : checkServiceabilityValidate body = .proceed p)
    (hup : upstream p = .httpError 400 data errMsg) :
    checkServiceability devMode body upstream =
      { status := 400, success := false, message := "Bad request to RapidShyp API",
        data := none, details := some data, error := none } := by
  simp [checkServiceability, hv, hup, handleUpstream]

/-- C6, witness at a concrete validated request and upstream 400 body. -/
theorem c6_upstream_400_witness :
    checkServiceability false reqFull
        (fun _ => UpstreamOutcome.httpError 400 (JsVal.obj [("error", JsVal.str "bad pincode")])
          "Request failed with status code 400") =
      { status := 400, success := false, message := "Bad request to RapidShyp API",
        data := none, details := some (JsVal.obj [("error", JsVal.str "bad pincode")]),
        error := none } :=
  c6_upstream_400 false reqFull payloadFull
    (fun _ => UpstreamOutcome.httpError 400 (JsVal.obj [("error", JsVal.str "bad pincode")])
      "Request failed with status code 400")
    (JsVal.obj [("error", JsVal.str "bad pincode")]) "Request failed with status code 400" rfl rfl

/-- C7: for every validated request whose upstream call fails in any way
other than HTTP 401 or HTTP 400 (another HTTP status, or no response at
all), the relay responds 500 with success=false and the generic message, and
the error text is present exactly when development mode is enabled. -/
theorem c7_other_failure (devMode : Bool) (body : List (String × JsVal)) (p : Payload)
    (upstream : Payload → UpstreamOutcome)
    (hv : checkServiceabilityValidate body = .proceed p)
    (hfail : otherFailure (upstream p)) :
    checkServiceability devMode body upstream =
      { status := 500, success := false, message := "Internal server error",
        data := none, details := none,
        error := if devMode then some (errMessage (upstream p)) else none } := by
  have hcs : checkServiceability devMode body upstream = handleUpstream devMode (upstream p) := by
    simp [checkServiceability, hv]
  rw [hcs]
  cases hout : upstream p with
  | ok d =>
      rw [hout] at hfail
      exact absurd hfail (by simp [otherFailure])
  | httpError s d m =>
      rw [hout] at hfail
      obtain ⟨h401, h400⟩ := hfail
      simp [handleUpstream, errMessage, h401, h400]
  | networkError m =>
      simp [handleUpstream, errMessage]

/-- C7, witness at a concrete validated request and a network failure, in
development mode. -/
theorem c7_other_failure_witness :
    checkServiceability true reqFull (fun _ => UpstreamOutcome.networkError "timeout exceeded") =
      { status := 500, success := false, message := "Internal server error",
        data := none, details := none, error := some "timeout exceeded" } :=
  c7_other_failure true reqFull payloadFull
    (fun _ => UpstreamOutcome.networkError "timeout exceeded") rfl trivial

/-- C8: the outbound payload is a deterministic pure function of the five
destructured fields: two bodies agreeing on Pickup_pincode,
Delivery_pincode, weight, cod and total_order_value that both pass
validation yield equal payloads, whatever else the bodies contain. -/
theorem c8_payload_deterministic (b1 b2 : List (String × JsVal)) (p1 p2 : Payload)
    (hpp : getField b1 "Pickup_pincode" = getField b2 "Pickup_pincode")
    (hdp : getField b1 "Delivery_pincode" = getField b2 "Delivery_pincode")
    (hw : getField b1 "weight" = getField b2 "weight")
    (hcod : getField b1 "cod" = getField b2 "cod")
    (htov : getField b1 "total_order_value" = getField b2 "total_order_value")
    (h1 : checkServiceabilityValidate b1 = .proceed p1)
    (h2 : checkServiceabilityValidate b2 = .proceed p2) :
    p1 = p2 := by
  rw [validate_proceed_eq b1 p1 h1, validate_proceed_eq b2 p2 h2, hpp, hdp, hw, hcod, htov]

/-- C8, witness: adding an unrelated field leaves the payload unchanged. -/
theorem c8_payload_deterministic_witness : payloadFull = payloadFull :=
  c8_payload_deterministic reqFull (("unrelated", JsVal.str "ignored") :: reqFull)
    payloadFull payloadFull rfl rfl rfl rfl rfl rfl rfl

/-- Validation observes the required fields only through their truthiness:
two bodies whose three required lookups agree on truthiness, at least one of
which is falsy, validate to the same 400 rejection. -/
theorem validate_reject_of_truthy_eq (b1 b2 : List (String × JsVal))
    (hdp : truthy (getField b1 "Delivery_pincode") = truthy (getField b2 "Delivery_pincode"))
    (hw : truthy (getField b1 "weight") = truthy (getField b2 "weight"))
    (hpp : truthy (getField b1 "Pickup_pincode") = truthy (getField b2 "Pickup_pincode"))
    (hmiss : truthy (getField b1 "Delivery_pincode") = false ∨
             truthy (getField b1 "weight") = false ∨
             truthy (getField b1 "Pickup_pincode") = false) :
    checkServiceabilityValidate b1 = checkServiceabilityValidate b2 ∧
    ∃ m : String, checkServiceabilityValidate b1 = .reject 400 m := by
  cases hd1 : truthy (getField b1 "Delivery_pincode") with
  | false =>
      have hd2 : truthy (getField b2 "Delivery_pincode") = false := hdp.symm.trans hd1
      have e1 : checkServiceabilityValidate b1 = .reject 400 "Pincode is required" := by
        simp [checkServiceabilityValidate, hd1]
      have e2 : checkServiceabilityValidate b2 = .reject 400 "Pincode is required" := by
        simp [checkServiceabilityValidate, hd2]
      exact ⟨e1.trans e2.symm, _, e1⟩
  | true =>
      have hd2 : truthy (getField b2 "Delivery_pincode") = true := hdp.symm.trans hd1
      cases hw1 : truthy (getField b1 "weight") with
      | false =>
          have hw2 : truthy (getField b2 "weight") = false := hw.symm.trans hw1
          have e1 : checkServiceabilityValidate b1 = .reject 400 "Weight (in kg) is required" := by
            simp [checkServiceabilityValidate, hd1, hw1]
          have e2 : checkServiceabilityValidate b2 = .reject 400 "Weight (in kg) is required" := by
            simp [checkServiceabilityValidate, hd2, hw2]
          exact ⟨e1.trans e2.symm, _, e1⟩
      | true =>
          have hw2 : truthy (getField b2 "weight") = true := hw.symm.trans hw1
          cases hp1 : truthy (getField b1 "Pickup_pincode") with
          | false =>
              have hp2 : truthy (getField b2 "Pickup_pincode") = false := hpp.symm.trans hp1
              have e1 : checkServiceabilityValidate b1 =
                  .reject 400 "Pickup pincode is required" := by
                simp [checkServiceabilityValidate, hd1, hw1, hp1]
              have e2 : checkServiceabilityValidate b2 =
                  .reject 400 "Pickup pincode is required" := by
                simp [checkServiceabilityValidate, hd2, hw2, hp2]
              exact ⟨e1.trans e2.symm, _, e1⟩
          | true =>
              exfalso
              rcases hmiss with h | h | h <;> simp_all

/-- C9: a required field that is present but falsy (for example weight 0 or
an empty-string pincode) is treated exactly as if the field were absent: the
handler's response is the one for the body with the key removed, and it is a
400 rejection, whatever the upstream call would have returned. -/
theorem c9_falsy_as_absent (body : List (String × JsVal)) (k : String) (v : JsVal)
    (hk : k = "Delivery_pincode" ∨ k = "weight" ∨ k = "Pickup_pincode")
    (hfalsy : truthy v = false) (devMode : Bool) (upstream : Payload → UpstreamOutcome) :
    checkServiceability devMode ((k, v) :: body) upstream =
      checkServiceability devMode (removeField body k) upstream ∧
    ∃ m : String,
      checkServiceability devMode ((k, v) :: body) upstream = rejectResponse 400 m := by
  have key : checkServiceabilityValidate ((k, v) :: body) =
      checkServiceabilityValidate (removeField body k) ∧
      ∃ m : String, checkServiceabilityValidate ((k, v) :: body) = .reject 400 m := by
    rcases hk with hk | hk | hk
    · subst hk
      refine validate_reject_of_truthy_eq _ _ ?_ ?_ ?_ (Or.inl ?_)
      · rw [getField_cons_self, getField_removeField_self, hfalsy]
        rfl
      · rw [getField_cons_ne _ _ _ _ (by decide), getField_removeField_ne _ _ _ (by decide)]
      · rw [getField_cons_ne _ _ _ _ (by decide), getField_removeField_ne _ _ _ (by decide)]
      · rw [getField_cons_self]
        exact hfalsy
    · subst hk
      refine validate_reject_of_truthy_eq _ _ ?_ ?_ ?_ (Or.inr (Or.inl ?_))
      · rw [getField_cons_ne _ _ _ _ (by decide), getField_removeField_ne _ _ _ (by decide)]
      · rw [getField_cons_self, getField_removeField_self, hfalsy]
        rfl
      · rw [getField_cons_ne _ _ _ _ (by decide), getField_removeField_ne _ _ _ (by decide)]
      · rw [getField_cons_self]
        exact hfalsy
    · subst hk
      refine validate_reject_of_truthy_eq _ _ ?_ ?_ ?_ (Or.inr (Or.inr ?_))
      · rw [getField_cons_ne _ _ _ _ (by decide), getField_removeField_ne _ _ _ (by decide)]
      · rw [getField_cons_ne _ _ _ _ (by decide), getField_removeField_ne _ _ _ (by decide)]
      · rw [getField_cons_self, getField_removeField_self, hfalsy]
        rfl
      · rw [getField_cons_self]
        exact hfalsy
  obtain ⟨heq, m, hrej⟩ := key
  exact ⟨checkServiceability_congr devMode _ _ upstream heq, m,
    checkServiceability_of_reject devMode _ upstream 400 m hrej⟩

/-- A body carrying the two pincodes but no weight. -/
def reqNoWeight : List (String × JsVal) :=
  [("Delivery_pincode", JsVal.str "400001"), ("Pickup_pincode", JsVal.str "110001")]

/-- C9, witness: weight present with value 0 behaves as weight absent. -/
theorem c9_falsy_as_absent_witness :
    checkServiceability false (("weight", JsVal.num (JsNum.val 0)) :: reqNoWeight)
        (fun _ => UpstreamOutcome.ok JsVal.null) =
      checkServiceability false (removeField reqNoWeight "weight")
        (fun _ => UpstreamOutcome.ok JsVal.null) ∧
    ∃ m : String,
      checkServiceability false (("weight", JsVal.num (JsNum.val 0)) :: reqNoWeight)
          (fun _ => UpstreamOutcome.ok JsVal.null) =
        rejectResponse 400 m :=
  c9_falsy_as_absent reqNoWeight "weight" (JsVal.num (JsNum.val 0))
    (Or.inr (Or.inl rfl)) rfl false (fun _ => UpstreamOutcome.ok JsVal.null)

/-- C10: validation runs in the fixed order Delivery_pincode, weight,
Pickup_pincode, so the 400 response carries the message of the first falsy
required field in that order, with the exact message texts of the source. -/
theorem c10_validation_order (body : List (String × JsVal)) (devMode : Bool)
    (upstream : Payload → UpstreamOutcome)
    (h : truthy (getField body "Delivery_pincode") = false ∨
         truthy (getField body "weight") = false ∨
         truthy (getField body "Pickup_pincode") = false) :
    checkServiceability devMode body upstream =
      rejectResponse 400
        (if truthy (getField body "Delivery_pincode") = false then "Pincode is required"
         else if truthy (getField body "weight") = false then "Weight (in kg) is required"
         else "Pickup pincode is required") := by
  cases hdp : truthy (getField body "Delivery_pincode") with
  | false =>
      rw [checkServiceability_of_reject devMode body upstream 400 "Pincode is required"
        (by simp [checkServiceabilityValidate, hdp])]
      simp
  | true =>
      cases hw : truthy (getField body "weight") with
      | false =>
          rw [checkServiceability_of_reject devMode body upstream 400
            "Weight (in kg) is required" (by simp [checkServiceabilityValidate, hdp, hw])]
          simp
      | true =>
          cases hpp : truthy (getField body "Pickup_pincode") with
          | false =>
              rw [checkServiceability_of_reject devMode body upstream 400
                "Pickup pincode is required"
                (by simp [checkServiceabilityValidate, hdp, hw, hpp])]
              simp
          | true =>
              exfalso
              rcases h with h | h | h <;> simp_all

/-- C10, witness: with only the delivery pincode supplied, the first falsy
field in the fixed order is weight, and its message is returned. -/
theorem c10_validation_order_witness :
    checkServiceability false [("Delivery_pincode", JsVal.str "400001")]
        (fun _ => UpstreamOutcome.ok JsVal.null) =
      rejectResponse 400
        (if truthy (getField [("Delivery_pincode", JsVal.str "400001")] "Delivery_pincode")
            = false then
          "Pincode is required"
         else if truthy (getField [("Delivery_pincode", JsVal.str "400001")] "weight")
            = false then
          "Weight (in kg) is required"
         else "Pickup pincode is required") :=
  c10_validation_order [("Delivery_pincode", JsVal.str "400001")] false
    (fun _ => UpstreamOutcome.ok JsVal.null) (Or.inr (Or.inl rfl))

end RapidShyp
